import Mathlib

/-!
Verification of the Chronicle streaming backend.  This file shallowly embeds
the conversation store (models/conversation.py), the speech detection
predicate (utils/conversation_utils.py), the conversation controller jobs
(workers/conversation_jobs.py), the memory extraction job
(workers/memory_jobs.py) and the HTTP conversation controller
(controllers/conversation_controller.py), and proves theorems settling the
claims about them.

Modelling conventions: numbers the Python code stores as floats
(timestamps, confidences, durations) are modelled as rationals; Python
dict lookups with defaults become Option; Python truthiness of strings
and of optional strings is embedded explicitly; Python lists become Lean
lists, and in-place mutation of a document becomes a function returning
the updated document together with the Python return value.
-/

namespace Chronicle

/-- Python truthiness of a string: `if s:` is true exactly when `s` is
nonempty. -/
def pyTruthyStr (s : String) : Bool := s ≠ ""

/-- Python `x or d` for an optional string `x` (None and the empty string
are falsy). Used for `active_transcript_version or "unknown"` in
memory_jobs.py. -/
def pyOrStr (o : Option String) (d : String) : String :=
  match o with
  | none => d
  | some s => if s = "" then d else s

/-- Embeds `Conversation.SpeakerSegment` (models/conversation.py).  The
declared Pydantic fields are start, end, text, speaker, confidence; `end`
is a Lean keyword, so it is called `endTime` here.  `identified_as` is NOT
a declared field of the model: it embeds the dynamic lookup
`segment.get("identified_as")` / `getattr(segment, "identified_as", None)`
done by process_memory_job (memory_jobs.py), which on the declared model
always yields None. -/
structure SpeakerSegment where
  start : ℚ
  endTime : ℚ
  text : String
  speaker : String
  confidence : Option ℚ
  identified_as : Option String
deriving DecidableEq, Repr

/-- Embeds `Conversation.TranscriptVersion` (models/conversation.py).
The provider enum is embedded as its string value; the provider-specific
`metadata` dict is not modelled (no claim reads it). -/
structure TranscriptVersion where
  version_id : String
  transcript : Option String
  segments : List SpeakerSegment
  provider : Option String
  model : Option String
  created_at : ℚ
  processing_time_seconds : Option ℚ
deriving DecidableEq, Repr

/-- Embeds `Conversation.MemoryVersion` (models/conversation.py).  The
`metadata` dict carries `memory_ids` when written by process_memory_job;
it is modelled as the `memory_ids` list. -/
structure MemoryVersion where
  version_id : String
  memory_count : Nat
  transcript_version_id : String
  provider : String
  model : Option String
  created_at : ℚ
  processing_time_seconds : Option ℚ
  memory_ids : List String
deriving DecidableEq, Repr

/-- Embeds the `Conversation` document (models/conversation.py, lines
71-113): core identifiers, audio paths, creation and deletion metadata,
summary fields, the two version lists and the two active pointers.  The
model declares no `end_reason`, no `completed_at` field and no `EndReason`
nested class; see `conversationNestedClasses` below. -/
structure Conversation where
  conversation_id : String
  audio_uuid : String
  user_id : String
  client_id : String
  audio_path : Option String
  cropped_audio_path : Option String
  created_at : ℚ
  deleted : Bool
  deletion_reason : Option String
  deleted_at : Option ℚ
  title : Option String
  summary : Option String
  detailed_summary : Option String
  transcript_versions : List TranscriptVersion
  memory_versions : List MemoryVersion
  active_transcript_version : Option String
  active_memory_version : Option String
deriving DecidableEq, Repr

/-- The nested classes declared inside `class Conversation`
(models/conversation.py).  There is no `EndReason` among them, which is
what `handle_end_of_conversation` (workers/conversation_jobs.py, line 103)
tries to access. -/
def conversationNestedClasses : List String :=
  [("TranscriptProvider"), ("MemoryProvider"), ("ConversationStatus"),
   ("SpeakerSegment"), ("TranscriptVersion"), ("MemoryVersion")]

/-- The declared Pydantic fields of the `Conversation` document
(models/conversation.py, lines 71-113). -/
def conversationFieldNames : List String :=
  [("conversation_id"), ("audio_uuid"), ("user_id"), ("client_id"),
   ("audio_path"), ("cropped_audio_path"), ("created_at"), ("deleted"),
   ("deletion_reason"), ("deleted_at"), ("title"), ("summary"),
   ("detailed_summary"), ("transcript_versions"), ("memory_versions"),
   ("active_transcript_version"), ("active_memory_version")]

/-- Computed property `active_transcript` (models/conversation.py, lines
149-159): None when the pointer is falsy (None or the empty string),
otherwise the first transcript version whose version_id equals the
pointer. -/
def Conversation.active_transcript (c : Conversation) : Option TranscriptVersion :=
  match c.active_transcript_version with
  | none => none
  | some vid =>
      if vid = "" then none
      else c.transcript_versions.find? (fun v => v.version_id == vid)

/-- Computed property `active_memory` (models/conversation.py, lines
161-171). -/
def Conversation.active_memory (c : Conversation) : Option MemoryVersion :=
  match c.active_memory_version with
  | none => none
  | some vid =>
      if vid = "" then none
      else c.memory_versions.find? (fun v => v.version_id == vid)

/-- Computed property `transcript` (models/conversation.py, lines
174-178): the transcript text of the active transcript version. -/
def Conversation.transcript (c : Conversation) : Option String :=
  match c.active_transcript with
  | some v => v.transcript
  | none => none

/-- Computed property `segments` (models/conversation.py, lines 180-184). -/
def Conversation.segments (c : Conversation) : List SpeakerSegment :=
  match c.active_transcript with
  | some v => v.segments
  | none => []

/-- Computed property `memory_count` (models/conversation.py, lines
192-196). -/
def Conversation.memory_count (c : Conversation) : Nat :=
  match c.active_memory with
  | some v => v.memory_count
  | none => 0

/-- `add_transcript_version` (models/conversation.py, lines 216-244):
appends a new version built from the arguments and, when `set_as_active`,
flips the active pointer to `version_id`.  No check of `deleted`, no
uniqueness check on `version_id`.  Returns the new version and the
updated document. -/
def Conversation.add_transcript_version (c : Conversation) (version_id : String)
    (transcript : String) (segments : List SpeakerSegment)
    (provider : Option String) (model : Option String)
    (processing_time_seconds : Option ℚ) (set_as_active : Bool) (now : ℚ) :
    TranscriptVersion × Conversation :=
  let new_version : TranscriptVersion :=
    { version_id := version_id
      transcript := some transcript
      segments := segments
      provider := provider
      model := model
      created_at := now
      processing_time_seconds := processing_time_seconds }
  let c1 := { c with transcript_versions := c.transcript_versions ++ [new_version] }
  let c2 := if set_as_active then { c1 with active_transcript_version := some version_id } else c1
  (new_version, c2)

/-- `add_memory_version` (models/conversation.py, lines 246-274): appends
a new memory version and, when `set_as_active`, flips the active memory
pointer.  No check of `deleted`, and `transcript_version_id` is not
validated against `transcript_versions`. -/
def Conversation.add_memory_version (c : Conversation) (version_id : String)
    (memory_count : Nat) (transcript_version_id : String) (provider : String)
    (model : Option String) (processing_time_seconds : Option ℚ)
    (memory_ids : List String) (set_as_active : Bool) (now : ℚ) :
    MemoryVersion × Conversation :=
  let new_version : MemoryVersion :=
    { version_id := version_id
      memory_count := memory_count
      transcript_version_id := transcript_version_id
      provider := provider
      model := model
      created_at := now
      processing_time_seconds := processing_time_seconds
      memory_ids := memory_ids }
  let c1 := { c with memory_versions := c.memory_versions ++ [new_version] }
  let c2 := if set_as_active then { c1 with active_memory_version := some version_id } else c1
  (new_version, c2)

/-- `set_active_transcript_version` (models/conversation.py, lines
276-282): when some version carries `version_id`, point the active
pointer at it and return True; otherwise return False and change
nothing.  No check of `deleted`. -/
def Conversation.set_active_transcript_version (c : Conversation) (version_id : String) :
    Bool × Conversation :=
  match c.transcript_versions.find? (fun v => v.version_id == version_id) with
  | some _ => (true, { c with active_transcript_version := some version_id })
  | none => (false, c)

/-- `set_active_memory_version` (models/conversation.py, lines 284-290). -/
def Conversation.set_active_memory_version (c : Conversation) (version_id : String) :
    Bool × Conversation :=
  match c.memory_versions.find? (fun v => v.version_id == version_id) with
  | some _ => (true, { c with active_memory_version := some version_id })
  | none => (false, c)

/-- Factory `create_conversation` (models/conversation.py, lines
303-351): a fresh conversation with empty version lists, no active
pointers and `deleted=False`. -/
def create_conversation (audio_uuid user_id client_id conversation_id : String)
    (title summary : Option String) (now : ℚ) : Conversation :=
  { conversation_id := conversation_id
    audio_uuid := audio_uuid
    user_id := user_id
    client_id := client_id
    audio_path := none
    cropped_audio_path := none
    created_at := now
    deleted := false
    deletion_reason := none
    deleted_at := none
    title := title
    summary := summary
    detailed_summary := none
    transcript_versions := []
    memory_versions := []
    active_transcript_version := none
    active_memory_version := none }

/-- `mark_conversation_deleted` (utils/conversation_utils.py, lines
558-581): soft delete, setting `deleted`, `deletion_reason` and
`deleted_at`. -/
def mark_conversation_deleted (c : Conversation) (deletion_reason : String) (now : ℚ) :
    Conversation :=
  { c with deleted := true
           deletion_reason := some deletion_reason
           deleted_at := some now }

/-! ### Speech detection (utils/conversation_utils.py, analyze_speech) -/

/-- One entry of the word-level data consumed by `analyze_speech`: a dict
with keys text, confidence, start, end, each read with `.get(key, 0)`. -/
structure TranscriptWord where
  text : String
  confidence : Option ℚ
  start : Option ℚ
  endTime : Option ℚ
deriving DecidableEq, Repr

/-- The `transcript_data` argument of `analyze_speech`: full text plus
optional word-level data. -/
structure TranscriptData where
  text : String
  words : List TranscriptWord
deriving DecidableEq, Repr

/-- `SpeechDetectionSettings` (settings_models.py, lines 41-60). -/
structure SpeechDetectionSettings where
  min_words : Nat
  min_confidence : ℚ
  min_duration : ℚ
deriving DecidableEq, Repr

/-- Modelled from the spec: `legacy_config.get_speech_detection_settings`,
which `analyze_speech` calls, is not under src/.  The spec gives the
default thresholds W_MIN=5, C_MIN=0.5, D_MIN=10.0 s; the in-src
`SpeechDetectionSettings` defaults (settings_models.py, lines 41-60) and
the env defaults in settings_manager.py (lines 95-97) are the same
values. -/
def get_speech_detection_settings : SpeechDetectionSettings :=
  { min_words := 5, min_confidence := 1/2, min_duration := 10 }

/-- Accumulator for `wsTokens`: chars of the current (reversed) token. -/
def wsTokensAux : List Char → List Char → List (List Char)
  | [], acc => if acc = [] then [] else [acc.reverse]
  | c :: cs, acc =>
      if c.isWhitespace then
        if acc = [] then wsTokensAux cs [] else acc.reverse :: wsTokensAux cs []
      else wsTokensAux cs (c :: acc)

/-- Python `str.split()` with no argument: split on runs of whitespace,
dropping empty tokens. -/
def wsTokens (l : List Char) : List (List Char) := wsTokensAux l []

/-- Python `str.strip()`: drop leading and trailing whitespace. -/
def pyStripChars (l : List Char) : List Char :=
  ((l.dropWhile Char.isWhitespace).reverse.dropWhile Char.isWhitespace).reverse

/-- `str.strip()` on a Lean string. -/
def pyStrip (s : String) : String := String.mk (pyStripChars s.toList)

/-- `str.lower()` on a Lean string. -/
def pyLower (s : String) : String := String.mk (s.toList.map Char.toLower)

/-- `len(text.split())`: the whitespace word count of a string. -/
def pyWordCount (s : String) : Nat := (wsTokens s.toList).length

/-- The dict returned by `analyze_speech` (the log-text `reason` key is
not modelled). -/
structure SpeechAnalysis where
  has_speech : Bool
  word_count : Nat
  duration : ℚ
  speech_start : Option ℚ
  speech_end : Option ℚ
  fallback : Bool
deriving DecidableEq, Repr

/-- The final `return` of `analyze_speech` (lines 137-143): no speech
detected. -/
def noSpeechResult : SpeechAnalysis :=
  { has_speech := false, word_count := 0, duration := 0,
    speech_start := none, speech_end := none, fallback := false }

/-- Method 2 of `analyze_speech` (lines 122-135): text-only fallback.
The text is stripped; when truthy and its whitespace word count reaches
`min_words`, speech qualifies. -/
def analyzeSpeechTextFallback (settings : SpeechDetectionSettings)
    (transcript_data : TranscriptData) : SpeechAnalysis :=
  let text := pyStrip transcript_data.text
  if text ≠ "" then
    let word_count := pyWordCount text
    if settings.min_words ≤ word_count then
      { has_speech := true, word_count := word_count, duration := 0,
        speech_start := some 0, speech_end := some 0, fallback := true }
    else noSpeechResult
  else noSpeechResult

/-- The `valid_words` of `analyze_speech` (line 87): words whose
confidence (0 when absent) reaches `min_confidence`. -/
def validWords (settings : SpeechDetectionSettings) (transcript_data : TranscriptData) :
    List TranscriptWord :=
  transcript_data.words.filter (fun w => settings.min_confidence ≤ w.confidence.getD 0)

/-- The span from the first valid word's start to the last valid word's
end (lines 99-101); 0 when there are no valid words. -/
def validSpan (settings : SpeechDetectionSettings) (transcript_data : TranscriptData) : ℚ :=
  match validWords settings transcript_data with
  | [] => 0
  | w0 :: rest => (rest.getLast?.getD w0).endTime.getD 0 - w0.start.getD 0

/-- `analyze_speech` (utils/conversation_utils.py, lines 50-143).  With
word-level data: filter by confidence, require `min_words` valid words,
then require the span from the first valid word's start to the last valid
word's end to reach `min_duration`.  Without word-level data (or when the
valid-word branch falls through because `min_words = 0` admits an empty
list): the text-only fallback. -/
def analyze_speech (settings : SpeechDetectionSettings)
    (transcript_data : TranscriptData) : SpeechAnalysis :=
  let words := transcript_data.words
  if words.isEmpty then analyzeSpeechTextFallback settings transcript_data
  else
    let valid_words := validWords settings transcript_data
    if valid_words.length < settings.min_words then
      { has_speech := false, word_count := valid_words.length, duration := 0,
        speech_start := none, speech_end := none, fallback := false }
    else
      match valid_words with
      | [] => analyzeSpeechTextFallback settings transcript_data
      | w0 :: rest =>
          let wl := rest.getLast?.getD w0
          let speech_start := w0.start.getD 0
          let speech_end := wl.endTime.getD 0
          let speech_duration := speech_end - speech_start
          if speech_duration < settings.min_duration then
            { has_speech := false, word_count := valid_words.length,
              duration := speech_duration, speech_start := none,
              speech_end := none, fallback := false }
          else
            { has_speech := true, word_count := valid_words.length,
              duration := speech_duration, speech_start := some speech_start,
              speech_end := some speech_end, fallback := false }

/-- `is_meaningful_speech` (utils/conversation_utils.py, lines 20-47):
False on falsy text, otherwise `analyze_speech(...).has_speech`. -/
def is_meaningful_speech (settings : SpeechDetectionSettings)
    (combined : TranscriptData) : Bool :=
  if combined.text = "" then false
  else (analyze_speech settings combined).has_speech

/-! ### Conversation controller job (workers/conversation_jobs.py) -/

/-- `Path(p).name`: the final path component. -/
def pyBasename (p : String) : String := (p.splitOn ("/")).getLastD p

/-- Observable effects of the post-loop phase of `open_conversation_job`. -/
structure PostLoopResult where
  deletion_reason : Option String
  chain_enqueued : Bool
  cleanup_ran : Bool
deriving DecidableEq, Repr

/-- The post-loop phase of `open_conversation_job`
(workers/conversation_jobs.py, lines 428-510).  The final
meaningful-speech validation is skipped by the source (comment at lines
430-432: speech was already validated during streaming), so the
accumulated `speech_ever_qualified` flag is not consulted.  When the
audio file never appeared, the conversation is soft-deleted with reason
`audio_file_not_ready`; otherwise `audio_path` is set to the basename and
the post-processing chain is enqueued.  Cleanup
(`handle_end_of_conversation`) runs on both paths. -/
def open_conversation_post_loop (c : Conversation) (speech_ever_qualified : Bool)
    (file_path : Option String) (now : ℚ) : PostLoopResult × Conversation :=
  match file_path with
  | none =>
      ({ deletion_reason := some ("audio_file_not_ready"),
         chain_enqueued := false, cleanup_ran := true },
       mark_conversation_deleted c ("audio_file_not_ready") now)
  | some p =>
      ({ deletion_reason := none, chain_enqueued := true, cleanup_ran := true },
       { c with audio_path := some (pyBasename p) })

/-- Python attribute lookup on the `Conversation` class: Ok when `name`
is one of its nested classes, AttributeError otherwise. -/
def getConversationClassAttr (name : String) : Except String Unit :=
  if conversationNestedClasses.contains name then Except.ok ()
  else Except.error (("AttributeError: type object Conversation has no attribute ") ++ name)

/-- Pydantic attribute assignment on a `Conversation` instance: Ok when
`field` is declared, ValueError otherwise. -/
def setConversationAttr (c : Conversation) (field : String) : Except String Conversation :=
  if conversationFieldNames.contains field then Except.ok c
  else Except.error (("ValueError: Conversation object has no field ") ++ field)

/-- The conversation-update step of `handle_end_of_conversation`
(workers/conversation_jobs.py, lines 95-110): evaluate
`Conversation.EndReason(end_reason)` (line 103), then assign
`conversation.end_reason` and `conversation.completed_at`.  The
surrounding `try` catches only ValueError, so an AttributeError from the
class-attribute lookup propagates. -/
def handle_end_of_conversation_update (c : Conversation) (end_reason : String) :
    Except String Conversation := do
  let _ ← getConversationClassAttr ("EndReason")
  let c1 ← setConversationAttr c ("end_reason")
  let c2 ← setConversationAttr c1 ("completed_at")
  Except.ok c2

/-! ### Memory extraction job (workers/memory_jobs.py) -/

/-- The parts of the user record read by `process_memory_job`:
`primary_speakers` is a list of dicts whose `name` entries are compared;
only the names are modelled (users.py is not under src/; the dict shape
follows controllers/system_controller.py). -/
structure UserRec where
  user_id : String
  email : String
  primary_speakers : List String
deriving DecidableEq, Repr

/-- The value returned by `memory_service.add_memory` when not None:
`(success, created_memory_ids)`, plus whether the service class name
contains OpenMemory (used only to pick the provider enum value). -/
structure MemoryServiceResult where
  success : Bool
  created_memory_ids : List String
  provider_is_open_memory : Bool
deriving DecidableEq, Repr

/-- The result dict of `process_memory_job`. -/
structure MemoryJobResult where
  success : Bool
  skipped : Bool
  reason : Option String
  memories_created : Option Nat
  error : Option String
deriving DecidableEq, Repr

/-- The dialogue lines `f"{speaker}: {text}"` built by
`process_memory_job` from segments with nonempty stripped text
(memory_jobs.py, lines 78-91). -/
def segDialogueLines (segs : List SpeakerSegment) : List String :=
  segs.filterMap (fun s =>
    let t := pyStrip s.text
    if t ≠ "" then some (s.speaker ++ (": ") ++ t) else none)

/-- `full_conversation` as built by `process_memory_job` (memory_jobs.py,
lines 75-94): the joined dialogue lines when segments exist, else the
transcript text when truthy, else empty. -/
def fullConversationOf (c : Conversation) : String :=
  if c.segments.isEmpty then
    match c.transcript with
    | some t => if t ≠ "" then t else ("")
    | none => ("")
  else String.intercalate ("\n") (segDialogueLines c.segments)

/-- The identified speakers collected by the primary-speakers filter
(memory_jobs.py, lines 103-112): `identified_as` values that are truthy
and not the literal Unknown, stripped and lowercased. -/
def transcriptSpeakersOf (segs : List SpeakerSegment) : List String :=
  segs.filterMap (fun s =>
    match s.identified_as with
    | some ia => if ia ≠ "" && ia ≠ ("Unknown") then some (pyLower (pyStrip ia)) else none
    | none => none)

/-- The skip decision of the primary-speakers filter (memory_jobs.py,
lines 100-120): skip only when the user has primary speakers configured,
the segments carry at least one identified speaker, and none of them
matches a primary speaker name. -/
def shouldSkipForPrimarySpeakers (user : Option UserRec) (c : Conversation) : Bool :=
  match user with
  | none => false
  | some u =>
      if u.primary_speakers.isEmpty then false
      else
        let transcript_speakers := transcriptSpeakersOf c.segments
        let primary_speaker_names := u.primary_speakers.map (fun n => pyLower (pyStrip n))
        !transcript_speakers.isEmpty &&
          transcript_speakers.all (fun s => !primary_speaker_names.contains s)

/-- `process_memory_job` (workers/memory_jobs.py, lines 24-249),
sequentially: build `full_conversation`; bail out below 10 characters;
apply the primary-speakers filter; call the memory service (its outcome
is the `svc` parameter, None modelling a falsy `memory_result`); on
success with nonempty ids, append a memory version whose
`transcript_version_id` is `active_transcript_version or "unknown"`.
The DB fetch of the conversation is resolved by the caller; wall-clock
processing time is not modelled. -/
def process_memory_job (c : Conversation) (user : Option UserRec)
    (svc : Option MemoryServiceResult) (new_version_id : String) (now : ℚ) :
    MemoryJobResult × Conversation :=
  let full_conversation := fullConversationOf c
  if full_conversation.length < 10 then
    ({ success := false, skipped := false, reason := none,
       memories_created := none, error := some ("Conversation too short") }, c)
  else if shouldSkipForPrimarySpeakers user c then
    ({ success := true, skipped := true, reason := some ("No primary speakers"),
       memories_created := none, error := none }, c)
  else
    match svc with
    | none =>
        ({ success := false, skipped := false, reason := none,
           memories_created := none,
           error := some ("Memory service returned False") }, c)
    | some r =>
        if r.success && !r.created_memory_ids.isEmpty then
          let transcript_version_id := pyOrStr c.active_transcript_version ("unknown")
          let provider :=
            if r.provider_is_open_memory then ("openmemory_mcp") else ("friend_lite")
          let c2 := (c.add_memory_version new_version_id r.created_memory_ids.length
            transcript_version_id provider none none r.created_memory_ids true now).2
          ({ success := true, skipped := false, reason := none,
             memories_created := some r.created_memory_ids.length, error := none }, c2)
        else
          ({ success := true, skipped := true, reason := none,
             memories_created := some 0, error := none }, c)

/-! ### HTTP conversation controller (controllers/conversation_controller.py) -/

/-- The parts of the authenticated principal the controller reads. -/
structure User where
  user_id : String
  email : String
  is_superuser : Bool
deriving DecidableEq, Repr

/-- `Conversation.find_one(Conversation.conversation_id == cid)`. -/
def find_one (store : List Conversation) (conversation_id : String) : Option Conversation :=
  store.find? (fun c => c.conversation_id == conversation_id)

/-- Response status of `get_conversation` (lines 87-128): 404 when no
conversation has the id, 403 when a non-admin does not own it, 200
otherwise. -/
def get_conversation_response (store : List Conversation) (conversation_id : String)
    (user : User) : Nat :=
  match find_one store conversation_id with
  | none => 404
  | some c => if !user.is_superuser && c.user_id != user.user_id then 403 else 200

/-- `delete_conversation` (lines 178-270): 404 when missing, 403 for a
non-owner non-admin, otherwise hard-delete the document and return 200. -/
def delete_conversation_response (store : List Conversation) (conversation_id : String)
    (user : User) : Nat × List Conversation :=
  match find_one store conversation_id with
  | none => (404, store)
  | some c =>
      if !user.is_superuser && c.user_id != user.user_id then (403, store)
      else (200, store.filter (fun x => x.conversation_id != conversation_id))

/-- Response status of `reprocess_transcript` (lines 273-400): 404 when
missing, 403 for a non-owner non-admin, 400 on falsy `audio_path`, 422
when the file is on neither candidate path, else enqueue the chain and
return 200.  The `deleted` flag is never consulted.  `disk` is the set of
existing file paths. -/
def reprocess_transcript_response (store : List Conversation) (disk : List String)
    (conversation_id : String) (user : User) : Nat :=
  match find_one store conversation_id with
  | none => 404
  | some c =>
      if !user.is_superuser && c.user_id != user.user_id then 403
      else
        match c.audio_path with
        | none => 400
        | some p =>
            if p = "" then 400
            else
              let possible_paths := [("/app/audio_chunks/") ++ p, p]
              if possible_paths.any (fun q => disk.contains q) then 200 else 422

/-- `save()`: write the updated document back to the store. -/
def saveConversation (store : List Conversation) (c : Conversation) : List Conversation :=
  store.map (fun x => if x.conversation_id == c.conversation_id then c else x)

/-- `activate_transcript_version` (lines 468-501): 404 when missing, 403
for a non-owner non-admin, 400 (without saving) when
`set_active_transcript_version` fails, else save and return 200. -/
def activate_transcript_version_response (store : List Conversation)
    (conversation_id version_id : String) (user : User) : Nat × List Conversation :=
  match find_one store conversation_id with
  | none => (404, store)
  | some c =>
      if !user.is_superuser && c.user_id != user.user_id then (403, store)
      else
        let r := c.set_active_transcript_version version_id
        if !r.1 then (400, store)
        else (200, saveConversation store r.2)

/-- `activate_memory_version` (lines 504-534). -/
def activate_memory_version_response (store : List Conversation)
    (conversation_id version_id : String) (user : User) : Nat × List Conversation :=
  match find_one store conversation_id with
  | none => (404, store)
  | some c =>
      if !user.is_superuser && c.user_id != user.user_id then (403, store)
      else
        let r := c.set_active_memory_version version_id
        if !r.1 then (400, store)
        else (200, saveConversation store r.2)

/-! ### Operation sequences and reachable conversations -/

/-- One call to a version-list mutator of the store
(models/conversation.py, lines 216-290). -/
inductive StoreOp where
  | addTranscript (version_id transcript : String) (segments : List SpeakerSegment)
      (provider model : Option String) (ptime : Option ℚ) (set_as_active : Bool) (now : ℚ)
  | addMemory (version_id : String) (memory_count : Nat) (transcript_version_id : String)
      (provider : String) (model : Option String) (ptime : Option ℚ)
      (memory_ids : List String) (set_as_active : Bool) (now : ℚ)
  | setActiveTranscript (version_id : String)
  | setActiveMemory (version_id : String)

/-- Apply one mutator call. -/
def applyStoreOp (c : Conversation) : StoreOp → Conversation
  | .addTranscript vid t segs p m pt act now =>
      (c.add_transcript_version vid t segs p m pt act now).2
  | .addMemory vid mc tvid p m pt ids act now =>
      (c.add_memory_version vid mc tvid p m pt ids act now).2
  | .setActiveTranscript vid => (c.set_active_transcript_version vid).2
  | .setActiveMemory vid => (c.set_active_memory_version vid).2

/-- Apply a sequence of mutator calls, left to right. -/
def applyStoreOps (c : Conversation) (ops : List StoreOp) : Conversation :=
  ops.foldl applyStoreOp c

/-- The invariant claimed for active pointers: each pointer, if set,
names exactly one element of its version list. -/
def activeNamesExactlyOne (c : Conversation) : Prop :=
  (∀ vid, c.active_transcript_version = some vid →
    (c.transcript_versions.countP (fun v => v.version_id == vid)) = 1) ∧
  (∀ vid, c.active_memory_version = some vid →
    (c.memory_versions.countP (fun v => v.version_id == vid)) = 1)

/-- The weaker invariant the mutators actually preserve: each pointer,
if set, names at least one element of its version list. -/
def activeNamesSome (c : Conversation) : Prop :=
  (∀ vid, c.active_transcript_version = some vid →
    ∃ v ∈ c.transcript_versions, v.version_id = vid) ∧
  (∀ vid, c.active_memory_version = some vid →
    ∃ v ∈ c.memory_versions, v.version_id = vid)

/-- The referential invariant for memory versions: every
`transcript_version_id` names some transcript version. -/
def memoryVersionsReferenceTranscripts (c : Conversation) : Prop :=
  ∀ v ∈ c.memory_versions,
    ∃ t ∈ c.transcript_versions, t.version_id = v.transcript_version_id

/-- Conversations reachable through the repository's own mutation paths:
creation by `open_conversation_job`/upload, transcript versions appended
by the transcription jobs, activation flips, the memory extraction job,
soft deletion, the controller post-loop, and the title/summary job. -/
inductive ReachableConversation : Conversation → Prop where
  | create : ∀ audio_uuid user_id client_id conversation_id title summary now,
      ReachableConversation
        (create_conversation audio_uuid user_id client_id conversation_id title summary now)
  | addTranscript : ∀ c vid t segs p m pt act now, ReachableConversation c →
      ReachableConversation (c.add_transcript_version vid t segs p m pt act now).2
  | setActiveTranscript : ∀ c vid, ReachableConversation c →
      ReachableConversation (c.set_active_transcript_version vid).2
  | setActiveMemory : ∀ c vid, ReachableConversation c →
      ReachableConversation (c.set_active_memory_version vid).2
  | memoryJob : ∀ c user svc vid now, ReachableConversation c →
      ReachableConversation (process_memory_job c user svc vid now).2
  | markDeleted : ∀ c reason now, ReachableConversation c →
      ReachableConversation (mark_conversation_deleted c reason now)
  | postLoop : ∀ c sp fp now, ReachableConversation c →
      ReachableConversation (open_conversation_post_loop c sp fp now).2
  | setTitleSummary : ∀ c t s ds, ReachableConversation c →
      ReachableConversation { c with title := t, summary := s, detailed_summary := ds }

/-! ### Concrete fixtures used by witnesses and counterexamples -/

/-- A freshly created conversation (no versions, no pointers). -/
def convBase : Conversation :=
  create_conversation ("sess1") ("u1") ("client1") ("c1") none none 0

/-- A non-admin principal owning user id u1. -/
def nonAdminUser : User :=
  { user_id := "u1", email := "u1@example.com", is_superuser := false }

/-- A conversation with the same id c1 but owned by another user. -/
def convOther : Conversation :=
  create_conversation ("sess2") ("u2") ("client2") ("c1") none none 0

/-- convBase with one transcript version tv1 (active) and an audio file. -/
def convWithTv : Conversation :=
  { (convBase.add_transcript_version ("tv1") ("hello there my good friend") []
      (some ("deepgram")) none none true 0).2 with audio_path := some ("a.wav") }

/-- convWithTv soft-deleted. -/
def convDel : Conversation := mark_conversation_deleted convWithTv ("user_request") 1

/-- A diarized segment with no identified speaker label. -/
def segEx : SpeakerSegment :=
  { start := 0, endTime := 5, text := "hello there my good friend today",
    speaker := "Speaker 1", confidence := none, identified_as := none }

/-- convBase with one active transcript version whose segments are
[segEx]. -/
def convSegEx : Conversation :=
  (convBase.add_transcript_version ("tv1") ("hello there my good friend") [segEx]
    (some ("deepgram")) none none true 0).2

/-- A user with the primary speaker Alice enrolled. -/
def userPrim : UserRec :=
  { user_id := "u1", email := "u1@example.com", primary_speakers := [("Alice")] }

/-- A segment whose speaker was identified as Bob. -/
def segBob : SpeakerSegment :=
  { start := 0, endTime := 5, text := "hello there my good friend today",
    speaker := "Speaker 1", confidence := none, identified_as := some ("Bob") }

/-- convBase with one active transcript version whose segments are
[segBob]. -/
def convBobEx : Conversation :=
  (convBase.add_transcript_version ("tv1") ("hello there my good friend") [segBob]
    (some ("deepgram")) none none true 0).2

/-- A successful memory-service call creating one memory. -/
def svcOk : MemoryServiceResult :=
  { success := true, created_memory_ids := [("m1")], provider_is_open_memory := false }

/-- The memory job run on convSegEx (no primary speakers configured). -/
def convMemEx : Conversation :=
  (process_memory_job convSegEx none (some svcOk) ("mv1") 1).2

/-- Two appends of the same version id v, both set active. -/
def dupVersionOps : List StoreOp :=
  [StoreOp.addTranscript ("v") ("s1") [] none none none true 0,
   StoreOp.addTranscript ("v") ("s2") [] none none none true 0]

/-- Word-level transcription data: five confident words spanning 12 s. -/
def tdWordsEx : TranscriptData :=
  { text := "hello there my good friend"
    words :=
      [{ text := "hello", confidence := some 1, start := some 0, endTime := some 1 },
       { text := "there", confidence := some 1, start := some 2, endTime := some 3 },
       { text := "my", confidence := some 1, start := some 4, endTime := some 5 },
       { text := "good", confidence := some 1, start := some 6, endTime := some 7 },
       { text := "friend", confidence := some 1, start := some 11, endTime := some 12 }] }

/-- Text-only transcription data with five words. -/
def tdTextEx : TranscriptData :=
  { text := "one two three four five", words := [] }

/-! ## Theorems -/

/-- Helper: find? over an append whose first part has no hit. -/
theorem find_append_of_none {α : Type} (p : α → Bool) (l1 l2 : List α)
    (h : l1.find? p = none) : (l1 ++ l2).find? p = l2.find? p := by
  induction l1 with
  | nil => simp
  | cons a t ih =>
      rw [List.find?] at h
      cases hp : p a with
      | true => simp [hp] at h
      | false =>
          rw [hp] at h
          simp only [List.cons_append, List.find?, hp]
          exact ih h

/-- Helper: `set_active_transcript_version` with an id naming no version
returns False and the unchanged conversation. -/
theorem set_active_transcript_version_not_found (c : Conversation) (vid : String)
    (h : ∀ t ∈ c.transcript_versions, t.version_id ≠ vid) :
    c.set_active_transcript_version vid = (false, c) := by
  have hfind : c.transcript_versions.find? (fun v => v.version_id == vid) = none :=
    List.find?_eq_none.mpr (fun x hx => by simp [h x hx])
  unfold Conversation.set_active_transcript_version
  rw [hfind]

/-- Helper: `set_active_memory_version` with an id naming no version
returns False and the unchanged conversation. -/
theorem set_active_memory_version_not_found (c : Conversation) (vid : String)
    (h : ∀ t ∈ c.memory_versions, t.version_id ≠ vid) :
    c.set_active_memory_version vid = (false, c) := by
  have hfind : c.memory_versions.find? (fun v => v.version_id == vid) = none :=
    List.find?_eq_none.mpr (fun x hx => by simp [h x hx])
  unfold Conversation.set_active_memory_version
  rw [hfind]

/-- C1 (counterexample): a conversation that never accumulated qualifying
speech (the flag passed to the post-loop is false) is NOT soft-deleted
with reason no_meaningful_speech at loop exit: with the audio file
present it is not deleted at all, and without the file the deletion
reason is audio_file_not_ready. -/
theorem c1_counterexample :
    (open_conversation_post_loop convBase false (some ("chunks/abc.wav")) 5).2.deleted = false
    ∧ (open_conversation_post_loop convBase false (some ("chunks/abc.wav")) 5).1.deletion_reason
        ≠ some ("no_meaningful_speech")
    ∧ (open_conversation_post_loop convBase false none 5).1.deletion_reason
        = some ("audio_file_not_ready") := by
  refine ⟨?_, ?_, ?_⟩ <;>
    simp [open_conversation_post_loop, convBase, create_conversation,
      mark_conversation_deleted]

/-- C1 (amended): the post-loop of open_conversation_job performs no
meaningful-speech validation: its outcome is independent of whether
qualifying speech accumulated, the only soft-delete reason it can
produce is audio_file_not_ready (exactly when the audio file never
appeared), and cleanup runs on every path. -/
theorem open_conversation_post_loop_skips_speech_check
    (c : Conversation) (sp : Bool) (fp : Option String) (now : ℚ) :
    (open_conversation_post_loop c sp fp now).1.deletion_reason
        = (match fp with | none => some ("audio_file_not_ready") | some _ => none)
    ∧ (open_conversation_post_loop c sp fp now).1.deletion_reason
        ≠ some ("no_meaningful_speech")
    ∧ (open_conversation_post_loop c sp fp now).1.cleanup_ran = true
    ∧ open_conversation_post_loop c sp fp now = open_conversation_post_loop c true fp now := by
  cases fp <;> simp [open_conversation_post_loop]

/-- C2 (code bug): the Conversation model declares neither an EndReason
nested class nor end_reason / completed_at fields, so the
conversation-update step of handle_end_of_conversation raises
AttributeError at `Conversation.EndReason(end_reason)` (only ValueError
is caught) and persists nothing, for every conversation and reason. -/
theorem handle_end_of_conversation_cannot_persist :
    ("EndReason") ∉ conversationNestedClasses
    ∧ ("end_reason") ∉ conversationFieldNames
    ∧ ("completed_at") ∉ conversationFieldNames
    ∧ (∀ (c : Conversation) (end_reason : String),
        handle_end_of_conversation_update c end_reason
          = Except.error
              (("AttributeError: type object Conversation has no attribute EndReason"))) := by
  refine ⟨by decide, by decide, by decide, fun c r => rfl⟩

/-- C4 (counterexample): for the non-admin u1 and id c1, retrieval and
deletion answer 404 when no conversation has that id but 403 when c1
exists and belongs to u2 — the responses differ, so the outcome reveals
whether the resource exists. -/
theorem c4_counterexample :
    get_conversation_response [] ("c1") nonAdminUser = 404
    ∧ get_conversation_response [convOther] ("c1") nonAdminUser = 403
    ∧ (delete_conversation_response [] ("c1") nonAdminUser).1 = 404
    ∧ (delete_conversation_response [convOther] ("c1") nonAdminUser).1 = 403
    ∧ (404 : Nat) ≠ 403 := by
  refine ⟨rfl, by decide, rfl, by decide, by decide⟩

/-- C4 (amended): an authorization failure on retrieval or deletion is
surfaced as 403, but a nonexistent conversation id is surfaced as 404,
so a non-admin principal can tell whether a conversation with that id
exists. -/
theorem get_delete_responses_distinguish_existence :
    (∀ store cid (u : User), u.is_superuser = false → find_one store cid = none →
      get_conversation_response store cid u = 404
      ∧ (delete_conversation_response store cid u).1 = 404)
    ∧ (∀ store cid (u : User) c, u.is_superuser = false → find_one store cid = some c →
        c.user_id ≠ u.user_id →
        get_conversation_response store cid u = 403
        ∧ (delete_conversation_response store cid u).1 = 403) := by
  constructor
  · intro store cid u hsu hf
    constructor <;> simp [get_conversation_response, delete_conversation_response, hf]
  · intro store cid u c hsu hf hne
    constructor <;>
      simp [get_conversation_response, delete_conversation_response, hf, hsu, hne]

/-- C4 witness: the amended theorem applied to the concrete stores of
the counterexample. -/
theorem get_delete_responses_distinguish_existence_witness :
    (get_conversation_response [] ("c1") nonAdminUser = 404
      ∧ (delete_conversation_response [] ("c1") nonAdminUser).1 = 404)
    ∧ (get_conversation_response [convOther] ("c1") nonAdminUser = 403
      ∧ (delete_conversation_response [convOther] ("c1") nonAdminUser).1 = 403) :=
  ⟨get_delete_responses_distinguish_existence.1 [] ("c1") nonAdminUser rfl rfl,
   get_delete_responses_distinguish_existence.2 [convOther] ("c1") nonAdminUser convOther
     rfl rfl (by decide)⟩

/-- C10: activating a version id that names no element of the respective
version list returns False and leaves the conversation fully unchanged,
and the activate endpoints then answer 400 without saving any change to
the store. -/
theorem activate_unknown_version_rejected :
    (∀ (c : Conversation) (vid : String), (∀ t ∈ c.transcript_versions, t.version_id ≠ vid) →
      c.set_active_transcript_version vid = (false, c))
    ∧ (∀ (c : Conversation) (vid : String), (∀ t ∈ c.memory_versions, t.version_id ≠ vid) →
      c.set_active_memory_version vid = (false, c))
    ∧ (∀ store cid vid (u : User) c, find_one store cid = some c →
        (u.is_superuser = true ∨ c.user_id = u.user_id) →
        (∀ t ∈ c.transcript_versions, t.version_id ≠ vid) →
        activate_transcript_version_response store cid vid u = (400, store))
    ∧ (∀ store cid vid (u : User) c, find_one store cid = some c →
        (u.is_superuser = true ∨ c.user_id = u.user_id) →
        (∀ t ∈ c.memory_versions, t.version_id ≠ vid) →
        activate_memory_version_response store cid vid u = (400, store)) := by
  refine ⟨set_active_transcript_version_not_found, set_active_memory_version_not_found, ?_, ?_⟩
  · intro store cid vid u c hf hown h
    have hr := set_active_transcript_version_not_found c vid h
    rcases hown with hsu | hid
    · simp [activate_transcript_version_response, hf, hsu, hr]
    · simp [activate_transcript_version_response, hf, hid, hr]
  · intro store cid vid u c hf hown h
    have hr := set_active_memory_version_not_found c vid h
    rcases hown with hsu | hid
    · simp [activate_memory_version_response, hf, hsu, hr]
    · simp [activate_memory_version_response, hf, hid, hr]

/-- C10 witness: the theorem applied to convWithTv (one version tv1) and
the unknown id tv9. -/
theorem activate_unknown_version_rejected_witness :
    convWithTv.set_active_transcript_version ("tv9") = (false, convWithTv)
    ∧ activate_transcript_version_response [convWithTv] ("c1") ("tv9") nonAdminUser
        = (400, [convWithTv]) :=
  ⟨activate_unknown_version_rejected.1 convWithTv ("tv9") (by decide),
   activate_unknown_version_rejected.2.2.1 [convWithTv] ("c1") ("tv9") nonAdminUser convWithTv
     (by decide) (Or.inr (by decide)) (by decide)⟩

/-- C3 (counterexample): on the soft-deleted conversation convDel every
mutator still succeeds and mutates — add_transcript_version appends a
second version, add_memory_version appends a version,
set_active_transcript_version returns True — and a reprocess request by
the owner is accepted (200), not rejected as a validation error. -/
theorem c3_counterexample :
    convDel.deleted = true
    ∧ convDel.transcript_versions.length = 1
    ∧ (convDel.add_transcript_version ("tv2") ("more text here") [] none none none true 2).2.transcript_versions.length = 2
    ∧ (convDel.add_memory_version ("mv1") 1 ("tv1") ("friend_lite") none none [("m1")] true 2).2.memory_versions.length = 1
    ∧ (convDel.set_active_transcript_version ("tv1")).1 = true
    ∧ reprocess_transcript_response [convDel] [("/app/audio_chunks/a.wav")] ("c1") nonAdminUser = 200 := by
  refine ⟨by decide, by decide, by decide, by decide, by decide, by decide⟩

/-- C3 (amended): the store mutators perform no deleted check — on a
deleted conversation add_transcript_version and add_memory_version
append exactly as on a live one, and the activators succeed whenever the
id names a version — and reprocess_transcript never rejects for
deletion: an authorized request for a deleted conversation whose audio
file exists is accepted (200). -/
theorem deleted_conversations_not_protected :
    (∀ (c : Conversation) vid t segs p m pt act (now : ℚ), c.deleted = true →
      (c.add_transcript_version vid t segs p m pt act now).2.transcript_versions
        = c.transcript_versions ++ [(c.add_transcript_version vid t segs p m pt act now).1]
      ∧ (c.add_transcript_version vid t segs p m pt act now).2.deleted = true)
    ∧ (∀ (c : Conversation) vid mc tvid pr m pt ids act (now : ℚ), c.deleted = true →
      (c.add_memory_version vid mc tvid pr m pt ids act now).2.memory_versions
        = c.memory_versions ++ [(c.add_memory_version vid mc tvid pr m pt ids act now).1])
    ∧ (∀ (c : Conversation) vid, c.deleted = true →
        (∃ v ∈ c.transcript_versions, v.version_id = vid) →
        (c.set_active_transcript_version vid).1 = true)
    ∧ (∀ (c : Conversation) vid, c.deleted = true →
        (∃ v ∈ c.memory_versions, v.version_id = vid) →
        (c.set_active_memory_version vid).1 = true)
    ∧ (∀ store disk cid (u : User) c p, find_one store cid = some c →
        c.deleted = true → (u.is_superuser = true ∨ c.user_id = u.user_id) →
        c.audio_path = some p → p ≠ "" →
        disk.contains (("/app/audio_chunks/") ++ p) = true →
        reprocess_transcript_response store disk cid u = 200) := by
  refine ⟨?_, ?_, ?_, ?_, ?_⟩
  · intro c vid t segs p m pt act now hdel
    unfold Conversation.add_transcript_version
    cases act <;> simp [hdel]
  · intro c vid mc tvid pr m pt ids act now hdel
    unfold Conversation.add_memory_version
    cases act <;> simp [hdel]
  · intro c vid _ hex
    obtain ⟨v, hv, hid⟩ := hex
    have : (c.transcript_versions.find? (fun t => t.version_id == vid)).isSome := by
      rw [List.find?_isSome]
      exact ⟨v, hv, by simp [hid]⟩
    obtain ⟨w, hw⟩ := Option.isSome_iff_exists.mp this
    unfold Conversation.set_active_transcript_version
    rw [hw]
  · intro c vid _ hex
    obtain ⟨v, hv, hid⟩ := hex
    have : (c.memory_versions.find? (fun t => t.version_id == vid)).isSome := by
      rw [List.find?_isSome]
      exact ⟨v, hv, by simp [hid]⟩
    obtain ⟨w, hw⟩ := Option.isSome_iff_exists.mp this
    unfold Conversation.set_active_memory_version
    rw [hw]
  · intro store disk cid u c p hf _ hown hap hp hd
    have hmem : (("/app/audio_chunks/") ++ p) ∈ disk := by simpa using hd
    rcases hown with hsu | hid
    · simp [reprocess_transcript_response, hf, hsu, hap, hp, hmem]
    · simp [reprocess_transcript_response, hf, hid, hap, hp, hmem]

/-- C3 witness: the amended theorem applied to convDel. -/
theorem deleted_conversations_not_protected_witness :
    (convDel.add_transcript_version ("tv2") ("more text here") [] none none none true 2).2.transcript_versions
      = convDel.transcript_versions
        ++ [(convDel.add_transcript_version ("tv2") ("more text here") [] none none none true 2).1]
    ∧ (convDel.set_active_transcript_version ("tv1")).1 = true
    ∧ reprocess_transcript_response [convDel] [("/app/audio_chunks/a.wav")] ("c1") nonAdminUser = 200 :=
  ⟨(deleted_conversations_not_protected.1 convDel ("tv2") ("more text here") [] none none none true 2 (by decide)).1,
   deleted_conversations_not_protected.2.2.1 convDel ("tv1") (by decide) (by decide),
   deleted_conversations_not_protected.2.2.2.2 [convDel] [("/app/audio_chunks/a.wav")] ("c1")
     nonAdminUser convDel ("a.wav") (by decide) (by decide) (Or.inr (by decide)) (by decide)
     (by decide) (by decide)⟩

/-- C9 (counterexample): with the fresh but empty version id, the
round trip add_transcript_version then set_active_transcript_version
succeeds (True) yet the computed transcript property is None, not the
transcript that was passed in — the empty pointer is falsy in
active_transcript. -/
theorem c9_counterexample :
    convBase.transcript_versions = []
    ∧ ((convBase.add_transcript_version ("") ("hello") [] none none none true 1).2.set_active_transcript_version ("")).1 = true
    ∧ ((convBase.add_transcript_version ("") ("hello") [] none none none true 1).2.set_active_transcript_version ("")).2.transcript = none
    ∧ ((convBase.add_transcript_version ("") ("hello") [] none none none true 1).2.set_active_transcript_version ("")).2.transcript
        ≠ some ("hello") := by
  refine ⟨by decide, by decide, by decide, by decide⟩

/-- C9 (amended): for every nonempty version id fresh for the
conversation, add_transcript_version with transcript s followed by
set_active_transcript_version succeeds and the computed transcript
property equals s. -/
theorem add_then_activate_roundtrip :
    ∀ (c : Conversation) (v s : String) segs p m pt (now : ℚ),
      v ≠ "" → (∀ t ∈ c.transcript_versions, t.version_id ≠ v) →
      (((c.add_transcript_version v s segs p m pt true now).2.set_active_transcript_version v).1 = true
       ∧ ((c.add_transcript_version v s segs p m pt true now).2.set_active_transcript_version v).2.transcript
           = some s) := by
  intro c v s segs p m pt now hv hfresh
  have hfind0 : c.transcript_versions.find? (fun t => t.version_id == v) = none :=
    List.find?_eq_none.mpr (fun x hx => by simp [hfresh x hx])
  unfold Conversation.add_transcript_version Conversation.set_active_transcript_version
  simp only [find_append_of_none _ _ _ hfind0, List.find?]
  simp [Conversation.transcript, Conversation.active_transcript, hv,
    find_append_of_none _ _ _ hfind0, List.find?]

/-- C9 witness: the amended round trip at convBase with version id tv9. -/
theorem add_then_activate_roundtrip_witness :
    (((convBase.add_transcript_version ("tv9") ("hi there") [] none none none true 1).2.set_active_transcript_version ("tv9")).1 = true
     ∧ ((convBase.add_transcript_version ("tv9") ("hi there") [] none none none true 1).2.set_active_transcript_version ("tv9")).2.transcript
         = some ("hi there")) :=
  add_then_activate_roundtrip convBase ("tv9") ("hi there") [] none none none 1
    (by decide) (by decide)

/-- Helper: field effects of add_transcript_version. -/
theorem add_transcript_version_fields (c : Conversation) (vid t : String)
    (segs : List SpeakerSegment) (p m : Option String) (pt : Option ℚ)
    (act : Bool) (now : ℚ) :
    (c.add_transcript_version vid t segs p m pt act now).2.transcript_versions
      = c.transcript_versions ++ [(c.add_transcript_version vid t segs p m pt act now).1]
    ∧ (c.add_transcript_version vid t segs p m pt act now).2.memory_versions
      = c.memory_versions
    ∧ (c.add_transcript_version vid t segs p m pt act now).2.active_transcript_version
      = (if act then some vid else c.active_transcript_version)
    ∧ (c.add_transcript_version vid t segs p m pt act now).2.active_memory_version
      = c.active_memory_version
    ∧ (c.add_transcript_version vid t segs p m pt act now).1.version_id = vid := by
  unfold Conversation.add_transcript_version
  cases act <;> simp

/-- Helper: field effects of add_memory_version. -/
theorem add_memory_version_fields (c : Conversation) (vid : String) (mc : Nat)
    (tvid pr : String) (m : Option String) (pt : Option ℚ) (ids : List String)
    (act : Bool) (now : ℚ) :
    (c.add_memory_version vid mc tvid pr m pt ids act now).2.memory_versions
      = c.memory_versions ++ [(c.add_memory_version vid mc tvid pr m pt ids act now).1]
    ∧ (c.add_memory_version vid mc tvid pr m pt ids act now).2.transcript_versions
      = c.transcript_versions
    ∧ (c.add_memory_version vid mc tvid pr m pt ids act now).2.active_memory_version
      = (if act then some vid else c.active_memory_version)
    ∧ (c.add_memory_version vid mc tvid pr m pt ids act now).2.active_transcript_version
      = c.active_transcript_version
    ∧ (c.add_memory_version vid mc tvid pr m pt ids act now).1.version_id = vid
    ∧ (c.add_memory_version vid mc tvid pr m pt ids act now).1.transcript_version_id = tvid := by
  unfold Conversation.add_memory_version
  cases act <;> simp

/-- Helper: field effects of set_active_transcript_version. -/
theorem set_active_transcript_version_fields (c : Conversation) (vid : String) :
    ((c.set_active_transcript_version vid).2.transcript_versions = c.transcript_versions
     ∧ (c.set_active_transcript_version vid).2.memory_versions = c.memory_versions
     ∧ (c.set_active_transcript_version vid).2.active_memory_version = c.active_memory_version)
    ∧ ((c.set_active_transcript_version vid).2.active_transcript_version
          = c.active_transcript_version
       ∨ ((c.set_active_transcript_version vid).2.active_transcript_version = some vid
          ∧ ∃ v ∈ c.transcript_versions, v.version_id = vid)) := by
  unfold Conversation.set_active_transcript_version
  cases hfind : c.transcript_versions.find? (fun v => v.version_id == vid) with
  | none => simp
  | some w =>
      have hmem := List.mem_of_find?_eq_some hfind
      have hid : w.version_id = vid := by simpa using List.find?_some hfind
      exact ⟨⟨rfl, rfl, rfl⟩, Or.inr ⟨rfl, w, hmem, hid⟩⟩

/-- Helper: field effects of set_active_memory_version. -/
theorem set_active_memory_version_fields (c : Conversation) (vid : String) :
    ((c.set_active_memory_version vid).2.memory_versions = c.memory_versions
     ∧ (c.set_active_memory_version vid).2.transcript_versions = c.transcript_versions
     ∧ (c.set_active_memory_version vid).2.active_transcript_version
         = c.active_transcript_version)
    ∧ ((c.set_active_memory_version vid).2.active_memory_version = c.active_memory_version
       ∨ ((c.set_active_memory_version vid).2.active_memory_version = some vid
          ∧ ∃ v ∈ c.memory_versions, v.version_id = vid)) := by
  unfold Conversation.set_active_memory_version
  cases hfind : c.memory_versions.find? (fun v => v.version_id == vid) with
  | none => simp
  | some w =>
      have hmem := List.mem_of_find?_eq_some hfind
      have hid : w.version_id = vid := by simpa using List.find?_some hfind
      exact ⟨⟨rfl, rfl, rfl⟩, Or.inr ⟨rfl, w, hmem, hid⟩⟩

/-- Helper: one store mutator call preserves the weak active-pointer
invariant. -/
theorem applyStoreOp_preserves_activeNamesSome (c : Conversation) (op : StoreOp)
    (h : activeNamesSome c) : activeNamesSome (applyStoreOp c op) := by
  obtain ⟨ht, hm⟩ := h
  cases op with
  | addTranscript vid t segs p m pt act now =>
      simp only [applyStoreOp]
      obtain ⟨hTV, hMV, hAT, hAM, hNV⟩ := add_transcript_version_fields c vid t segs p m pt act now
      constructor
      · intro w hw
        rw [hAT] at hw
        rw [hTV]
        cases act with
        | true =>
            simp only [if_pos rfl] at hw
            injection hw with hw
            subst hw
            exact ⟨_, List.mem_append_right _ (List.mem_singleton_self _), hNV⟩
        | false =>
            simp only [Bool.false_eq_true, if_neg] at hw
            obtain ⟨v, hv, hid⟩ := ht w (by simpa using hw)
            exact ⟨v, List.mem_append_left _ hv, hid⟩
      · intro w hw
        rw [hAM] at hw
        rw [hMV]
        exact hm w hw
  | addMemory vid mc tvid pr m pt ids act now =>
      simp only [applyStoreOp]
      obtain ⟨hMV, hTV, hAM, hAT, hNV, _⟩ := add_memory_version_fields c vid mc tvid pr m pt ids act now
      constructor
      · intro w hw
        rw [hAT] at hw
        rw [hTV]
        exact ht w hw
      · intro w hw
        rw [hAM] at hw
        rw [hMV]
        cases act with
        | true =>
            simp only [if_pos rfl] at hw
            injection hw with hw
            subst hw
            exact ⟨_, List.mem_append_right _ (List.mem_singleton_self _), hNV⟩
        | false =>
            simp only [Bool.false_eq_true, if_neg] at hw
            obtain ⟨v, hv, hid⟩ := hm w (by simpa using hw)
            exact ⟨v, List.mem_append_left _ hv, hid⟩
  | setActiveTranscript vid =>
      simp only [applyStoreOp]
      obtain ⟨⟨hTV, hMV, hAM⟩, hAT⟩ := set_active_transcript_version_fields c vid
      constructor
      · intro w hw
        rw [hTV]
        rcases hAT with hsame | ⟨hset, v, hv, hid⟩
        · rw [hsame] at hw
          exact ht w hw
        · rw [hset] at hw
          injection hw with hw
          subst hw
          exact ⟨v, hv, hid⟩
      · intro w hw
        rw [hAM] at hw
        rw [hMV]
        exact hm w hw
  | setActiveMemory vid =>
      simp only [applyStoreOp]
      obtain ⟨⟨hMV, hTV, hAT⟩, hAM⟩ := set_active_memory_version_fields c vid
      constructor
      · intro w hw
        rw [hAT] at hw
        rw [hTV]
        exact ht w hw
      · intro w hw
        rw [hMV]
        rcases hAM with hsame | ⟨hset, v, hv, hid⟩
        · rw [hsame] at hw
          exact hm w hw
        · rw [hset] at hw
          injection hw with hw
          subst hw
          exact ⟨v, hv, hid⟩

/-- C7 (counterexample): the exactly-one invariant is not preserved:
starting from a fresh conversation (which satisfies it), appending the
same version id twice with set_as_active leaves the active pointer
naming two elements of transcript_versions. -/
theorem c7_counterexample :
    activeNamesExactlyOne convBase
    ∧ ¬ activeNamesExactlyOne (applyStoreOps convBase dupVersionOps) := by
  constructor
  · constructor <;> intro vid h <;> simp [convBase, create_conversation] at h
  · intro hinv
    have h1 := hinv.1 ("v") (by decide)
    have h2 : (applyStoreOps convBase dupVersionOps).transcript_versions.countP
        (fun v => v.version_id == ("v")) = 2 := by decide
    rw [h2] at h1
    exact absurd h1 (by decide)

/-- C7 (amended): every sequence of store mutator calls preserves the
weaker invariant that each active pointer, if set, names at least one
element of its version list (the mutators do not enforce uniqueness of
version ids, so naming exactly one element is not preserved). -/
theorem store_ops_preserve_active_names_some :
    ∀ (ops : List StoreOp) (c : Conversation),
      activeNamesSome c → activeNamesSome (applyStoreOps c ops) := by
  intro ops
  induction ops with
  | nil => intro c h; exact h
  | cons op rest ih =>
      intro c h
      rw [applyStoreOps, List.foldl_cons]
      exact ih _ (applyStoreOp_preserves_activeNamesSome c op h)

/-- C7 witness: the preservation theorem applied to the fresh
conversation and the duplicate-append sequence. -/
theorem store_ops_preserve_active_names_some_witness :
    activeNamesSome convBase ∧ activeNamesSome (applyStoreOps convBase dupVersionOps) :=
  have h : activeNamesSome convBase :=
    ⟨fun vid h => by simp [convBase, create_conversation] at h,
     fun vid h => by simp [convBase, create_conversation] at h⟩
  ⟨h, store_ops_preserve_active_names_some dupVersionOps convBase h⟩

/-- Helper: what an active transcript version implies — it is a member
of transcript_versions and the pointer is its (truthy) id. -/
theorem active_transcript_eq_some (c : Conversation) (v : TranscriptVersion)
    (h : c.active_transcript = some v) :
    v ∈ c.transcript_versions ∧ c.active_transcript_version = some v.version_id
    ∧ v.version_id ≠ "" := by
  cases hat : c.active_transcript_version with
  | none =>
      have hnone : c.active_transcript = none := by
        unfold Conversation.active_transcript
        rw [hat]
      rw [hnone] at h
      exact absurd h (by simp)
  | some vid =>
      have hred : c.active_transcript
          = (if vid = "" then none
             else c.transcript_versions.find? (fun v => v.version_id == vid)) := by
        unfold Conversation.active_transcript
        rw [hat]
      rw [hred] at h
      by_cases hv : vid = ""
      · rw [if_pos hv] at h; exact absurd h (by simp)
      · rw [if_neg hv] at h
        have hmem := List.mem_of_find?_eq_some h
        have hid : v.version_id = vid := by simpa using List.find?_some h
        refine ⟨hmem, by rw [hid], by rw [hid]; exact hv⟩

/-- Helper: a full_conversation long enough to process forces an active
transcript version to exist. -/
theorem active_of_fullConversation (c : Conversation)
    (h : ¬ (fullConversationOf c).length < 10) :
    ∃ v, c.active_transcript = some v := by
  cases hat : c.active_transcript with
  | some v => exact ⟨v, rfl⟩
  | none =>
      exfalso
      have hseg : c.segments = [] := by unfold Conversation.segments; rw [hat]
      have htr : c.transcript = none := by unfold Conversation.transcript; rw [hat]
      have hempty : fullConversationOf c = "" := by
        unfold fullConversationOf
        rw [hseg, htr]
        simp
      rw [hempty] at h
      simp at h

/-- Helper: the second component of process_memory_job is either the
unchanged conversation or an add_memory_version whose
transcript_version_id is the truthy active pointer (or unknown). -/
theorem process_memory_job_snd (c : Conversation) (user : Option UserRec)
    (svc : Option MemoryServiceResult) (vid : String) (now : ℚ) :
    (process_memory_job c user svc vid now).2 = c
    ∨ (¬ (fullConversationOf c).length < 10
       ∧ ∃ r : MemoryServiceResult,
           svc = some r
           ∧ (process_memory_job c user svc vid now).2
             = (c.add_memory_version vid r.created_memory_ids.length
                 (pyOrStr c.active_transcript_version ("unknown"))
                 (if r.provider_is_open_memory then ("openmemory_mcp") else ("friend_lite"))
                 none none r.created_memory_ids true now).2) := by
  unfold process_memory_job
  by_cases h10 : (fullConversationOf c).length < 10
  · rw [if_pos h10]
    exact Or.inl rfl
  · rw [if_neg h10]
    by_cases hskip : shouldSkipForPrimarySpeakers user c = true
    · simp [hskip]
    · rw [Bool.not_eq_true] at hskip
      cases svc with
      | none => simp [hskip]
      | some r =>
          by_cases hs : (r.success && !r.created_memory_ids.isEmpty) = true
          · right
            refine ⟨h10, r, rfl, ?_⟩
            simp [hskip, hs]
          · left
            simp [hskip, hs]

/-- Helper: process_memory_job preserves the referential invariant of
memory versions. -/
theorem process_memory_job_preserves_refs (c : Conversation) (user : Option UserRec)
    (svc : Option MemoryServiceResult) (vid : String) (now : ℚ)
    (h : memoryVersionsReferenceTranscripts c) :
    memoryVersionsReferenceTranscripts (process_memory_job c user svc vid now).2 := by
  rcases process_memory_job_snd c user svc vid now with heq | ⟨h10, r, _, heq⟩
  · rw [heq]; exact h
  · rw [heq]
    obtain ⟨hMV, hTV, _, _, _, hTVID⟩ :=
      add_memory_version_fields c vid r.created_memory_ids.length
        (pyOrStr c.active_transcript_version ("unknown"))
        (if r.provider_is_open_memory then ("openmemory_mcp") else ("friend_lite"))
        none none r.created_memory_ids true now
    intro w hw
    rw [hMV] at hw
    rw [hTV]
    rcases List.mem_append.mp hw with hw | hw
    · exact h w hw
    · rw [List.mem_singleton] at hw
      subst hw
      rw [hTVID]
      obtain ⟨v, hv⟩ := active_of_fullConversation c h10
      obtain ⟨hmem, hat, hne⟩ := active_transcript_eq_some c v hv
      rw [hat]
      simp only [pyOrStr, if_neg hne]
      exact ⟨v, hmem, rfl⟩

/-- C5: every conversation reachable through the repository's mutation
paths (creation, transcript appends, activation flips, the memory
extraction job, soft deletion, the controller post-loop, title/summary)
satisfies the invariant that each memory version's
transcript_version_id names some element of transcript_versions. -/
theorem reachable_memory_versions_reference_transcripts :
    ∀ c, ReachableConversation c → memoryVersionsReferenceTranscripts c := by
  intro c h
  induction h with
  | create au ui ci cid t s now =>
      intro v hv
      simp [create_conversation] at hv
  | addTranscript c vid t segs p m pt act now _ ih =>
      obtain ⟨hTV, hMV, _, _, _⟩ := add_transcript_version_fields c vid t segs p m pt act now
      intro w hw
      rw [hMV] at hw
      rw [hTV]
      obtain ⟨u, hu, hid⟩ := ih w hw
      exact ⟨u, List.mem_append_left _ hu, hid⟩
  | setActiveTranscript c vid _ ih =>
      obtain ⟨⟨hTV, hMV, _⟩, _⟩ := set_active_transcript_version_fields c vid
      intro w hw
      rw [hMV] at hw
      rw [hTV]
      exact ih w hw
  | setActiveMemory c vid _ ih =>
      obtain ⟨⟨hMV, hTV, _⟩, _⟩ := set_active_memory_version_fields c vid
      intro w hw
      rw [hMV] at hw
      rw [hTV]
      exact ih w hw
  | memoryJob c user svc vid now _ ih =>
      exact process_memory_job_preserves_refs c user svc vid now ih
  | markDeleted c reason now _ ih =>
      intro w hw
      exact ih w hw
  | postLoop c sp fp now _ ih =>
      cases fp with
      | none =>
          intro w hw
          exact ih w hw
      | some p =>
          intro w hw
          exact ih w hw
  | setTitleSummary c t s ds _ ih =>
      intro w hw
      exact ih w hw

/-- C5 witness: a concrete reachable conversation with one appended
memory version, produced by create, add_transcript_version and
process_memory_job; the theorem applies to it. -/
theorem reachable_memory_versions_reference_transcripts_witness :
    ReachableConversation convMemEx
    ∧ memoryVersionsReferenceTranscripts convMemEx
    ∧ convMemEx.memory_versions.length = 1 :=
  have hreach : ReachableConversation convMemEx :=
    ReachableConversation.memoryJob convSegEx none (some svcOk) ("mv1") 1
      (ReachableConversation.addTranscript convBase ("tv1") ("hello there my good friend")
        [segEx] (some ("deepgram")) none none true 0
        (ReachableConversation.create ("sess1") ("u1") ("client1") ("c1") none none 0))
  ⟨hreach, reachable_memory_versions_reference_transcripts convMemEx hreach, by decide⟩

/-- C8 (counterexample): conversation convSegEx carries no identified
speaker at all, so none of user userPrim's primary speakers (Alice)
appears among its segments; yet the memory job does not skip — it
proceeds and appends a memory version. -/
theorem c8_counterexample :
    userPrim.primary_speakers ≠ []
    ∧ transcriptSpeakersOf convSegEx.segments = []
    ∧ (∀ s ∈ convSegEx.segments, s.speaker ≠ ("Alice") ∧ s.identified_as = none)
    ∧ (process_memory_job convSegEx (some userPrim) (some svcOk) ("mv1") 1).1.skipped = false
    ∧ (process_memory_job convSegEx (some userPrim) (some svcOk) ("mv1") 1).2.memory_versions.length = 1 := by
  refine ⟨by decide, by decide, by decide, by decide, by decide⟩

/-- C8 (amended): the primary-speakers skip fires only when the
conversation reaches the filter (at least 10 characters of dialogue) and
its segments carry at least one identified speaker, none of whom matches
an enrolled primary speaker; then the job returns skipped=true with
reason No primary speakers and appends nothing.  When no segment carries
an identified speaker, extraction proceeds even though no primary
speaker appears. -/
theorem memory_skip_requires_identified_speakers :
    ∀ (c : Conversation) (u : UserRec) (svc : Option MemoryServiceResult)
      (vid : String) (now : ℚ),
      u.primary_speakers ≠ [] →
      transcriptSpeakersOf c.segments ≠ [] →
      (∀ s ∈ transcriptSpeakersOf c.segments,
        s ∉ u.primary_speakers.map (fun n => pyLower (pyStrip n))) →
      ¬ (fullConversationOf c).length < 10 →
      (process_memory_job c (some u) svc vid now).1.skipped = true
      ∧ (process_memory_job c (some u) svc vid now).1.reason = some ("No primary speakers")
      ∧ (process_memory_job c (some u) svc vid now).2 = c := by
  intro c u svc vid now hp hts hdisj h10
  have hskip : shouldSkipForPrimarySpeakers (some u) c = true := by
    show (if u.primary_speakers.isEmpty = true then false
          else !(transcriptSpeakersOf c.segments).isEmpty
            && (transcriptSpeakersOf c.segments).all
                (fun s => !(u.primary_speakers.map (fun n => pyLower (pyStrip n))).contains s))
        = true
    rw [if_neg (by simp [List.isEmpty_iff, hp])]
    rw [Bool.and_eq_true]
    constructor
    · simp [List.isEmpty_iff, hts]
    · rw [List.all_eq_true]
      intro s hs
      have := hdisj s hs
      simp [this]
  refine ⟨?_, ?_, ?_⟩ <;> simp [process_memory_job, h10, hskip]

/-- C8 witness: the amended theorem applied to a conversation whose one
segment is identified as Bob while the user's primary speaker is Alice:
the job skips and changes nothing. -/
theorem memory_skip_requires_identified_speakers_witness :
    (process_memory_job convBobEx (some userPrim) (some svcOk) ("mv1") 1).1.skipped = true
    ∧ (process_memory_job convBobEx (some userPrim) (some svcOk) ("mv1") 1).1.reason
        = some ("No primary speakers")
    ∧ (process_memory_job convBobEx (some userPrim) (some svcOk) ("mv1") 1).2 = convBobEx :=
  memory_skip_requires_identified_speakers convBobEx userPrim (some svcOk) ("mv1") 1
    (by decide) (by decide) (by decide) (by decide)

/-- Helper: tokenizing an all-whitespace list flushes at most the
accumulator. -/
theorem wsTokensAux_all_ws (m : List Char) :
    ∀ acc, (∀ ch ∈ m, ch.isWhitespace = true) →
      wsTokensAux m acc = if acc = [] then [] else [acc.reverse] := by
  induction m with
  | nil => intro acc _; rfl
  | cons c cs ih =>
      intro acc h
      have hc : c.isWhitespace = true := h c (List.mem_cons_self c cs)
      have hcs : ∀ ch ∈ cs, ch.isWhitespace = true :=
        fun ch hch => h ch (List.mem_cons_of_mem c hch)
      rw [wsTokensAux, if_pos hc]
      by_cases hacc : acc = []
      · rw [if_pos hacc, if_pos hacc, ih [] hcs, if_pos rfl]
      · rw [if_neg hacc, if_neg hacc, ih [] hcs, if_pos rfl]

/-- Helper: trailing whitespace does not change the tokens. -/
theorem wsTokensAux_append_ws (l : List Char) :
    ∀ acc (m : List Char), (∀ ch ∈ m, ch.isWhitespace = true) →
      wsTokensAux (l ++ m) acc = wsTokensAux l acc := by
  induction l with
  | nil =>
      intro acc m h
      rw [List.nil_append, wsTokensAux_all_ws m acc h]
      rfl
  | cons c cs ih =>
      intro acc m h
      rw [List.cons_append, wsTokensAux, wsTokensAux]
      by_cases hc : c.isWhitespace = true
      · rw [if_pos hc, if_pos hc]
        by_cases hacc : acc = []
        · rw [if_pos hacc, if_pos hacc, ih [] m h]
        · rw [if_neg hacc, if_neg hacc, ih [] m h]
      · rw [if_neg hc, if_neg hc, ih (c :: acc) m h]

/-- Helper: leading whitespace does not change the tokens. -/
theorem wsTokensAux_leading_ws (m : List Char) :
    ∀ (l : List Char), (∀ ch ∈ m, ch.isWhitespace = true) →
      wsTokensAux (m ++ l) [] = wsTokensAux l [] := by
  induction m with
  | nil => intro l _; rw [List.nil_append]
  | cons c cs ih =>
      intro l h
      have hc := h c (List.mem_cons_self c cs)
      rw [List.cons_append, wsTokensAux, if_pos hc, if_pos rfl]
      exact ih l (fun ch hch => h ch (List.mem_cons_of_mem c hch))

/-- Helper: stripping leading and trailing whitespace does not change
the whitespace tokens. -/
theorem wsTokens_pyStripChars (l : List Char) :
    wsTokens (pyStripChars l) = wsTokens l := by
  have h1 : wsTokens l = wsTokens (l.dropWhile Char.isWhitespace) := by
    conv_lhs => rw [← List.takeWhile_append_dropWhile (p := Char.isWhitespace) (l := l)]
    exact wsTokensAux_leading_ws _ _ (fun ch hch => List.mem_takeWhile_imp hch)
  have hdecomp : l.dropWhile Char.isWhitespace
      = ((l.dropWhile Char.isWhitespace).reverse.dropWhile Char.isWhitespace).reverse
        ++ ((l.dropWhile Char.isWhitespace).reverse.takeWhile Char.isWhitespace).reverse := by
    conv_lhs =>
      rw [← List.reverse_reverse (l.dropWhile Char.isWhitespace),
        ← List.takeWhile_append_dropWhile (p := Char.isWhitespace)
          (l := (l.dropWhile Char.isWhitespace).reverse)]
    rw [List.reverse_append]
  have hsuf : ∀ ch ∈ ((l.dropWhile Char.isWhitespace).reverse.takeWhile Char.isWhitespace).reverse,
      ch.isWhitespace = true := by
    intro ch hch
    rw [List.mem_reverse] at hch
    exact List.mem_takeWhile_imp hch
  have h2 : wsTokens (l.dropWhile Char.isWhitespace)
      = wsTokens ((l.dropWhile Char.isWhitespace).reverse.dropWhile Char.isWhitespace).reverse := by
    conv_lhs => rw [hdecomp]
    exact wsTokensAux_append_ws _ [] _ hsuf
  rw [h1, h2]
  rfl

/-- Helper: `str.strip()` does not change the whitespace word count. -/
theorem pyWordCount_pyStrip (s : String) : pyWordCount (pyStrip s) = pyWordCount s := by
  unfold pyWordCount pyStrip
  have h : (String.mk (pyStripChars s.toList)).toList = pyStripChars s.toList := rfl
  rw [h, wsTokens_pyStripChars]

/-- Helper: a string whose strip is empty has word count 0. -/
theorem pyStrip_empty_wordCount (s : String) (h : pyStrip s = "") : pyWordCount s = 0 := by
  have h0 : pyStripChars s.toList = [] := by
    have h1 := congrArg String.toList h
    simpa using h1
  unfold pyWordCount
  rw [← wsTokens_pyStripChars s.toList, h0]
  rfl

/-- Helper: the text-only fallback qualifies exactly when the whitespace
word count of the text reaches min_words (for a positive min_words). -/
theorem textFallback_iff (settings : SpeechDetectionSettings) (td : TranscriptData)
    (hmw : 0 < settings.min_words) :
    ((analyzeSpeechTextFallback settings td).has_speech = true)
      ↔ settings.min_words ≤ pyWordCount td.text := by
  unfold analyzeSpeechTextFallback
  by_cases ht : pyStrip td.text = ""
  · rw [if_neg (by simp [ht])]
    simp only [noSpeechResult, Bool.false_eq_true, false_iff]
    rw [pyStrip_empty_wordCount td.text ht]
    omega
  · rw [if_pos (by simp [ht])]
    by_cases hc : settings.min_words ≤ pyWordCount (pyStrip td.text)
    · rw [if_pos hc]
      simp only [true_iff]
      rwa [pyWordCount_pyStrip] at hc
    · rw [if_neg hc]
      simp only [noSpeechResult, Bool.false_eq_true, false_iff]
      rwa [pyWordCount_pyStrip] at hc

/-- Helper: with word-level data, analyze_speech qualifies exactly when
enough confident words exist and their span reaches min_duration (for a
positive min_words). -/
theorem analyze_speech_words_iff (settings : SpeechDetectionSettings)
    (td : TranscriptData) (hmw : 0 < settings.min_words) (hw : td.words ≠ []) :
    ((analyze_speech settings td).has_speech = true)
      ↔ (settings.min_words ≤ (validWords settings td).length
         ∧ settings.min_duration ≤ validSpan settings td) := by
  unfold analyze_speech
  rw [if_neg (by simp [List.isEmpty_iff, hw])]
  by_cases hlen : (validWords settings td).length < settings.min_words
  · rw [if_pos hlen]
    simp only [Bool.false_eq_true, false_iff]
    exact fun h => absurd h.1 (by omega)
  · rw [if_neg hlen]
    cases hvw : validWords settings td with
    | nil =>
        rw [hvw] at hlen
        simp at hlen
        omega
    | cons w0 rest =>
        rw [hvw] at hlen
        have hspan : validSpan settings td
            = (rest.getLast?.getD w0).endTime.getD 0 - w0.start.getD 0 := by
          simp only [validSpan, hvw]
        rw [hspan]
        dsimp only
        by_cases hdur : (rest.getLast?.getD w0).endTime.getD 0 - w0.start.getD 0
            < settings.min_duration
        · rw [if_pos hdur]
          simp only [Bool.false_eq_true, false_iff]
          intro h
          exact absurd h.2 (by linarith)
        · rw [if_neg hdur]
          simp only [true_iff]
          exact ⟨by omega, by linarith⟩

/-- C6: at the default thresholds (W_MIN=5, C_MIN=0.5, D_MIN=10.0 s),
analyze_speech detects speech on word-level input exactly when at least
five words have confidence at least 0.5 and the span from the first
valid word's start to the last valid word's end is at least 10 seconds,
and with no word-level data exactly when the whitespace word count of
the text is at least five. -/
theorem analyze_speech_meaningful_iff (td : TranscriptData) :
    (td.words ≠ [] →
      ((analyze_speech get_speech_detection_settings td).has_speech = true
        ↔ (5 ≤ (validWords get_speech_detection_settings td).length
           ∧ 10 ≤ validSpan get_speech_detection_settings td)))
    ∧ (td.words = [] →
      ((analyze_speech get_speech_detection_settings td).has_speech = true
        ↔ 5 ≤ pyWordCount td.text))
    ∧ get_speech_detection_settings
        = { min_words := 5, min_confidence := 1/2, min_duration := 10 } := by
  refine ⟨?_, ?_, rfl⟩
  · intro hw
    exact analyze_speech_words_iff get_speech_detection_settings td (by decide) hw
  · intro hw
    have h : analyze_speech get_speech_detection_settings td
        = analyzeSpeechTextFallback get_speech_detection_settings td := by
      unfold analyze_speech
      rw [if_pos (by simp [List.isEmpty_iff, hw])]
    rw [h]
    exact textFallback_iff get_speech_detection_settings td (by decide)

/-- C6 witness: the iff applied to five confident words spanning 12 s
and to a five-word text with no word data. -/
theorem analyze_speech_meaningful_iff_witness :
    (analyze_speech get_speech_detection_settings tdWordsEx).has_speech = true
    ∧ (analyze_speech get_speech_detection_settings tdTextEx).has_speech = true :=
  ⟨((analyze_speech_meaningful_iff tdWordsEx).1 (by decide)).mpr
      (by constructor <;>
        norm_num [validWords, validSpan, tdWordsEx, List.filter,
          get_speech_detection_settings]),
   ((analyze_speech_meaningful_iff tdTextEx).2.1 rfl).mpr (by decide)⟩

end Chronicle
